import Mathlib

/-!
# Verification of the ESOL 2025 OKR engine core

A shallow embedding, in Lean 4, of the scoring, historical-snapshot and
trend/burndown core of the `esol_2025` repository:

* `scripts/etl/analysis/okr_aggregator.py` (`OKRAggregator.calculate_okr_scores`),
* `scripts/etl/analysis/historical_store.py` (`HistoricalDataStore`),
* `scripts/etl/analysis/trend_analyzer.py` (`TrendAnalyzer.calculate_burndown_trends`).

Python floats are modelled by `ℚ` (all of the arithmetic appearing in these
functions is exact on the inputs of interest), machine integers by `ℕ`/`ℤ`,
and timestamps by an integer number of seconds.  Dictionaries with a fixed
field layout become structures; the JSON layer of the snapshot store becomes
an explicit `Json` value type.
-/

/-! ## Python rounding

`round(x, n)` in Python rounds half to even.  `round_half_even` is that
rule on `ℚ`, and `py_round n q` is `round(q, n)`. -/

/-- Round a rational to an integer, rounding exact halves to the even
neighbour, as the Python builtin `round` does. -/
def round_half_even (q : ℚ) : ℤ :=
  let f : ℤ := ⌊q⌋
  if q - f < 1/2 then f
  else if (1 : ℚ)/2 < q - f then f + 1
  else if f % 2 = 0 then f else f + 1

/-- Python `round(q, n)` on rationals. -/
def py_round (n : ℕ) (q : ℚ) : ℚ :=
  (round_half_even (q * (10 : ℚ) ^ n) : ℚ) / (10 : ℚ) ^ n

/-! ## Inputs of `OKRAggregator.calculate_okr_scores`

The three analyzer result dictionaries, restricted to the keys that
`calculate_okr_scores` reads.  The counts are produced by
`ESOLAnalyzer.calculate_esol_counts` (`int(...)`, hence `ℕ`) and
`KioskAnalyzer`; the adoption percentage is a float. -/

/-- The fields of the `esol_counts` dict read by `calculate_okr_scores`. -/
structure ESOLCounts where
  total_devices : ℕ
  esol_2024 : ℕ
  esol_2025 : ℕ
deriving DecidableEq

/-- The field of the `win11_counts` dict read by `calculate_okr_scores`. -/
structure Win11Counts where
  win11_adoption_pct : ℚ
deriving DecidableEq

/-- The field of the `kiosk_counts` dict read by `calculate_okr_scores`. -/
structure KioskCounts where
  enterprise_count : ℕ
deriving DecidableEq

/-! ## Configuration

The slices of `config_manager.get_okr_criteria()` cached by
`OKRAggregator.__init__` and supplied by the configuration files and the
test doubles of the repository (`test_penalty_thresholds.py`,
`test_config_impact.py`).  Note that the configuration carries a
`penalty_thresholds` section. -/

/-- The `okr_weights` section of the OKR configuration. -/
structure OKRWeights where
  kr1_esol_2024 : ℚ
  kr2_esol_2025 : ℚ
  kr3_win11_compatibility : ℚ
  kr4_kiosk_reprovisioning : ℚ
deriving DecidableEq

/-- The `targets` section of the OKR configuration. -/
structure OKRTargets where
  kr1_target_percentage : ℚ
  kr2_target_percentage : ℚ
  kr3_target_percentage : ℚ
  kr4_target_count : ℕ
deriving DecidableEq

/-- The `status_thresholds` section of the OKR configuration. -/
structure StatusThresholds where
  on_track_min_progress : ℚ
  caution_min_progress : ℚ
deriving DecidableEq

/-- The `penalty_thresholds` section of the OKR configuration, as supplied
by the configuration collaborator and by the tests of the repository. -/
structure PenaltyThresholds where
  kr1_penalty_threshold_percentage : ℚ
  kr2_penalty_threshold_percentage : ℚ
deriving DecidableEq

/-- The OKR criteria configuration object passed to `OKRAggregator`. -/
structure OKRConfig where
  okr_weights : OKRWeights
  targets : OKRTargets
  status_thresholds : StatusThresholds
  penalty_thresholds : PenaltyThresholds
deriving DecidableEq

/-- The result dictionary of `calculate_okr_scores`. -/
structure OKRScores where
  total_devices : ℕ
  kr1_score : ℚ
  kr1_value : ℕ
  kr1_pct : ℚ
  kr2_score : ℚ
  kr2_value : ℕ
  kr2_pct : ℚ
  kr3_score : ℚ
  kr3_value : ℚ
  kr4_score : ℚ
  kr4_value : ℕ
  okr_score : ℚ
  status : String
  status_icon : String
deriving DecidableEq

/-- The weighted overall score of `calculate_okr_scores`
(`okr_aggregator.py`, lines 91 to 96): each KR score is multiplied by its
configured weight divided by 100 and the four products are summed. -/
def okr_weighted_score (w : OKRWeights) (kr1_score kr2_score kr3_score kr4_score : ℚ) : ℚ :=
  kr1_score * (w.kr1_esol_2024 / 100) +
  kr2_score * (w.kr2_esol_2025 / 100) +
  kr3_score * (w.kr3_win11_compatibility / 100) +
  kr4_score * (w.kr4_kiosk_reprovisioning / 100)

/-- `OKRAggregator.calculate_okr_scores` (`okr_aggregator.py`, lines 42 to
124), translated statement by statement.  In the source the divisors of the
KR1 and KR2 penalty formulas are the literals `1.0` and `5.0` (lines 71 and
78); the configured `penalty_thresholds` are never read, and that is
reproduced faithfully here. -/
def calculate_okr_scores (cfg : OKRConfig) (esol_counts : ESOLCounts)
    (win11_counts : Win11Counts) (kiosk_counts : KioskCounts) : OKRScores :=
  let total_devices := esol_counts.total_devices
  -- KR1: ESOL 2024 remediation (target: 0%)
  let kr1_current := esol_counts.esol_2024
  let kr1_pct : ℚ := if 0 < total_devices then ((kr1_current : ℚ) / (total_devices : ℚ)) * 100 else 0
  let kr1_score : ℚ := if 0 < kr1_pct then max 0 (100 - (kr1_pct / 1) * 100) else 100
  -- KR2: ESOL 2025 remediation (target: 0%)
  let kr2_current := esol_counts.esol_2025
  let kr2_pct : ℚ := if 0 < total_devices then ((kr2_current : ℚ) / (total_devices : ℚ)) * 100 else 0
  let kr2_score : ℚ := if 0 < kr2_pct then max 0 (100 - (kr2_pct / 5) * 100) else 100
  -- KR3: Windows 11 compatibility (target: 90%)
  let kr3_current := win11_counts.win11_adoption_pct
  let kr3_target := cfg.targets.kr3_target_percentage
  let kr3_score : ℚ := if 0 < kr3_target then min 100 ((kr3_current / kr3_target) * 100) else 100
  -- KR4: Kiosk re-provisioning (target: 0 devices)
  let kr4_current := kiosk_counts.enterprise_count
  let kr4_target := cfg.targets.kr4_target_count
  let kr4_score : ℚ := if kr4_current ≤ kr4_target then 100 else 0
  -- Weighted OKR score
  let okr_score := okr_weighted_score cfg.okr_weights kr1_score kr2_score kr3_score kr4_score
  -- Status classification
  let status_pair :=
    if cfg.status_thresholds.on_track_min_progress ≤ okr_score then ("ON TRACK", "🟢")
    else if cfg.status_thresholds.caution_min_progress ≤ okr_score then ("CAUTION", "🟡")
    else ("AT RISK", "🔴")
  { total_devices := total_devices
    kr1_score := py_round 1 kr1_score
    kr1_value := kr1_current
    kr1_pct := py_round 2 kr1_pct
    kr2_score := py_round 1 kr2_score
    kr2_value := kr2_current
    kr2_pct := py_round 2 kr2_pct
    kr3_score := py_round 1 kr3_score
    kr3_value := py_round 2 kr3_current
    kr4_score := py_round 1 kr4_score
    kr4_value := kr4_current
    okr_score := py_round 1 okr_score
    status := status_pair.1
    status_icon := status_pair.2 }

/-! Concrete configurations and inputs used by the example scenario of the
specification and by the penalty-threshold tests of the repository. -/

/-- The configuration of the example scenario of the specification and of test 1
of `test_penalty_thresholds.py`: weights 25/25/40/10, targets 0/0/90/0,
status thresholds 80/60, penalty thresholds 1.0 and 5.0. -/
def exampleConfig : OKRConfig :=
  { okr_weights :=
      { kr1_esol_2024 := 25
        kr2_esol_2025 := 25
        kr3_win11_compatibility := 40
        kr4_kiosk_reprovisioning := 10 }
    targets :=
      { kr1_target_percentage := 0
        kr2_target_percentage := 0
        kr3_target_percentage := 90
        kr4_target_count := 0 }
    status_thresholds :=
      { on_track_min_progress := 80
        caution_min_progress := 60 }
    penalty_thresholds :=
      { kr1_penalty_threshold_percentage := 1
        kr2_penalty_threshold_percentage := 5 } }

/-- Test 2 of `test_penalty_thresholds.py`: the same configuration except
for stricter penalty thresholds 0.5 and 2.0. -/
def strictPenaltyConfig : OKRConfig :=
  { exampleConfig with
    penalty_thresholds :=
      { kr1_penalty_threshold_percentage := 1/2
        kr2_penalty_threshold_percentage := 2 } }

/-- The raw counts of the example scenario and of `test_penalty_thresholds.py`:
1000 devices, 5 ESOL 2024 devices (0.5%), 20 ESOL 2025 devices (2.0%). -/
def exampleESOLCounts : ESOLCounts :=
  { total_devices := 1000, esol_2024 := 5, esol_2025 := 20 }

/-- The adoption percentage of the example scenario. -/
def exampleWin11Counts : Win11Counts := { win11_adoption_pct := 85 }

/-- The kiosk count of the example scenario: 5 enterprise kiosk devices. -/
def exampleKioskCounts : KioskCounts := { enterprise_count := 5 }

/-! ## Historical snapshots

`HistoricalDataStore` persists one JSON document per snapshot.  For the
retrieval and trend functions only the timestamp (modelled as an integer
number of seconds) and the four raw KR values of the embedded
`overall_scores` dict matter. -/

/-- The fields of a stored snapshot read by `get_previous_snapshot` and
`calculate_burndown_trends`: the timestamp and the raw KR values of its
`overall_scores`.  The three count-based values are produced by the
analyzers as non-negative integers; the adoption percentage is a float. -/
structure HistSnapshot where
  ts : ℤ
  kr1_value : ℕ
  kr2_value : ℕ
  kr3_value : ℚ
  kr4_value : ℕ
deriving DecidableEq

/-- The target date of `get_previous_snapshot`
(`historical_store.py`, line 88): `datetime.now() - timedelta(days=days_back)`,
in seconds. -/
def snapshot_target (now days_back : ℤ) : ℤ := now - days_back * 86400

/-- The quantity minimized by `get_previous_snapshot` (line 101): the
absolute difference in seconds between a snapshot timestamp and the target
date. -/
def snapshot_dist (now days_back : ℤ) (s : HistSnapshot) : ℤ :=
  |s.ts - snapshot_target now days_back|

/-- One iteration of the loop of `get_previous_snapshot` (lines 98 to 106):
the accumulator is `(best_match, min_diff)`, `None` before the first
iteration; a candidate replaces the current best exactly when its
difference is strictly smaller. -/
def nearest_step (now days_back : ℤ) (best : Option (HistSnapshot × ℤ))
    (s : HistSnapshot) : Option (HistSnapshot × ℤ) :=
  match best with
  | none => some (s, snapshot_dist now days_back s)
  | some (b, m) =>
    if snapshot_dist now days_back s < m then some (s, snapshot_dist now days_back s)
    else some (b, m)

/-- `HistoricalDataStore.get_previous_snapshot` (`historical_store.py`,
lines 79 to 107).  The store contents are modelled as the list of stored
snapshots in the order `_list_snapshot_files` yields them (sorted
filenames, hence chronological order); the current time is a parameter.
Returns `None` on an empty store, otherwise the first candidate of the
scan achieving the minimal absolute time difference. -/
def get_previous_snapshot (now days_back : ℤ) (snapshots : List HistSnapshot) :
    Option HistSnapshot :=
  (snapshots.foldl (nearest_step now days_back) none).map Prod.fst

/-! ## Burndown trends -/

/-- Python `int(q)` on a float: truncation toward zero. -/
def py_int (q : ℚ) : ℤ := if q < 0 then -⌊-q⌋ else ⌊q⌋

/-- The result dictionary of `TrendAnalyzer.calculate_burndown_trends`.
The insufficient-history branch omits the `days_elapsed` and
`snapshots_analyzed` keys, hence those fields are optional. -/
structure BurndownTrends where
  kr1_velocity : ℚ
  kr2_velocity : ℚ
  kr3_velocity : ℚ
  kr4_velocity : ℚ
  trend_direction : String
  projection_kr1_days_to_zero : Option ℤ
  projection_kr2_days_to_zero : Option ℤ
  has_sufficient_history : Bool
  days_elapsed : Option ℤ
  snapshots_analyzed : Option ℕ
deriving DecidableEq

/-- The sufficient-history branch of `calculate_burndown_trends`
(`trend_analyzer.py`, lines 205 to 252), as a function of the first and
last snapshots and the snapshot count.  `timedelta.days` floors, hence
`Int.fdiv`; `int(...)` truncates toward zero, hence `py_int`. -/
def burndown_core (first last : HistSnapshot) (count : ℕ) : BurndownTrends :=
  let days_elapsed : ℤ := max 1 (Int.fdiv (last.ts - first.ts) 86400)
  -- Velocities (change per day)
  let kr1_velocity : ℚ := ((first.kr1_value : ℚ) - (last.kr1_value : ℚ)) / (days_elapsed : ℚ)
  let kr2_velocity : ℚ := ((first.kr2_value : ℚ) - (last.kr2_value : ℚ)) / (days_elapsed : ℚ)
  let kr3_velocity : ℚ := (last.kr3_value - first.kr3_value) / (days_elapsed : ℚ)
  let kr4_velocity : ℚ := ((first.kr4_value : ℚ) - (last.kr4_value : ℚ)) / (days_elapsed : ℚ)
  -- Overall trend direction: majority vote of strictly positive velocities
  let positive_trends : ℕ :=
    (if 0 < kr1_velocity then 1 else 0) + (if 0 < kr2_velocity then 1 else 0) +
    (if 0 < kr3_velocity then 1 else 0) + (if 0 < kr4_velocity then 1 else 0)
  let trend_direction :=
    if 3 ≤ positive_trends then "improving"
    else if positive_trends ≤ 1 then "declining"
    else "stable"
  -- Days-to-zero projections for KR1 and KR2
  let kr1_current : ℚ := (last.kr1_value : ℚ)
  let kr2_current : ℚ := (last.kr2_value : ℚ)
  { kr1_velocity := kr1_velocity
    kr2_velocity := kr2_velocity
    kr3_velocity := kr3_velocity
    kr4_velocity := kr4_velocity
    trend_direction := trend_direction
    projection_kr1_days_to_zero :=
      if 0 < kr1_velocity then some (py_int (kr1_current / kr1_velocity)) else none
    projection_kr2_days_to_zero :=
      if 0 < kr2_velocity then some (py_int (kr2_current / kr2_velocity)) else none
    has_sufficient_history := true
    days_elapsed := some days_elapsed
    snapshots_analyzed := some count }

/-- `TrendAnalyzer.calculate_burndown_trends` (`trend_analyzer.py`, lines
174 to 252): fewer than two snapshots give the degraded neutral result,
otherwise the velocities and projections are computed from the first and
last snapshots of the chronological list. -/
def calculate_burndown_trends (current_snapshots : List HistSnapshot) : BurndownTrends :=
  if h : current_snapshots.length < 2 then
    { kr1_velocity := 0
      kr2_velocity := 0
      kr3_velocity := 0
      kr4_velocity := 0
      trend_direction := "stable"
      projection_kr1_days_to_zero := none
      projection_kr2_days_to_zero := none
      has_sufficient_history := false
      days_elapsed := none
      snapshots_analyzed := none }
  else
    have hne : current_snapshots ≠ [] := by
      intro e
      rw [e] at h
      exact h (by simp)
    burndown_core (current_snapshots.head hne) (current_snapshots.getLast hne)
      current_snapshots.length

/-! ## The persisted snapshot document

`save_snapshot` serializes one snapshot as a JSON document and
`_load_snapshot` reads it back, rebuilding DataFrames from the per-dimension
record lists.  The document is modelled by an explicit JSON value type; a
DataFrame, as `to_dict("records")` renders it, by a list of rows, each row
an ordered list of column-value pairs. -/

/-- JSON values, as written by `json.dump` and read by `json.load`. -/
inductive Json where
  | null : Json
  | bool (b : Bool) : Json
  | num (q : ℚ) : Json
  | str (s : String) : Json
  | arr (elements : List Json) : Json
  | obj (fields : List (String × Json)) : Json

/-- `DataFrame.to_dict("records")` under `json.dump`: a JSON array of row
objects.  (For an empty table the source writes the literal `[]`, which is
the same value.) -/
def encode_score_table (t : List (List (String × Json))) : Json :=
  Json.arr (t.map Json.obj)

/-- `HistoricalDataStore.save_snapshot` (`historical_store.py`, lines 29 to
64): the snapshot document, with the timestamp rendered by `isoformat()`
and the three score tables rendered as record lists. -/
def save_snapshot (timestamp_iso : String) (overall_scores : List (String × Json))
    (country_scores sdm_scores site_scores : List (List (String × Json))) : Json :=
  Json.obj
    [("timestamp", Json.str timestamp_iso),
     ("overall_scores", Json.obj overall_scores),
     ("country_scores", encode_score_table country_scores),
     ("sdm_scores", encode_score_table sdm_scores),
     ("site_scores", encode_score_table site_scores)]

/-- The value `_load_snapshot` returns: the parsed document fields plus the
three DataFrames rebuilt from the record lists (lines 170 to 173). -/
structure LoadedSnapshot where
  timestamp : String
  overall_scores : List (String × Json)
  country_scores : List (List (String × Json))
  sdm_scores : List (List (String × Json))
  site_scores : List (List (String × Json))
  country_scores_df : List (List (String × Json))
  sdm_scores_df : List (List (String × Json))
  site_scores_df : List (List (String × Json))

/-- Python dict lookup on a parsed JSON object. -/
def json_lookup : List (String × Json) → String → Option Json
  | [], _ => none
  | (k, v) :: rest, key => if k = key then some v else json_lookup rest key

/-- Reading one record of a score table: it must be a JSON object. -/
def decode_row : Json → Option (List (String × Json))
  | Json.obj fields => some fields
  | _ => none

/-- Reading the records of a score table one by one. -/
def decode_rows : List Json → Option (List (List (String × Json)))
  | [] => some []
  | j :: rest => do
    let r ← decode_row j
    let rs ← decode_rows rest
    some (r :: rs)

/-- Reading a score table: a JSON array of records. -/
def decode_score_table : Json → Option (List (List (String × Json)))
  | Json.arr elements => decode_rows elements
  | _ => none

/-- Reading a JSON string. -/
def decode_str : Json → Option String
  | Json.str s => some s
  | _ => none

/-- Reading a JSON object. -/
def decode_obj : Json → Option (List (String × Json))
  | Json.obj fields => some fields
  | _ => none

/-- `HistoricalDataStore._load_snapshot` (`historical_store.py`, lines 158
to 175): parse the snapshot document, read its five fields, and attach the
three DataFrames rebuilt from the record lists. -/
def load_snapshot (j : Json) : Option LoadedSnapshot := do
  let fields ← decode_obj j
  let ts ← (json_lookup fields "timestamp").bind decode_str
  let overall ← (json_lookup fields "overall_scores").bind decode_obj
  let country ← (json_lookup fields "country_scores").bind decode_score_table
  let sdm ← (json_lookup fields "sdm_scores").bind decode_score_table
  let site ← (json_lookup fields "site_scores").bind decode_score_table
  some { timestamp := ts
         overall_scores := overall
         country_scores := country
         sdm_scores := sdm
         site_scores := site
         country_scores_df := country
         sdm_scores_df := sdm
         site_scores_df := site }

/-! Concrete snapshots used by the witnesses of the store and trend
theorems.  With `now = 0` and `days_back = 7` the target date is second
`-604800`. -/

/-- A snapshot 100 seconds before the 7-days-ago target. -/
def histEarlyTie : HistSnapshot :=
  { ts := -604900, kr1_value := 10, kr2_value := 20, kr3_value := 85, kr4_value := 5 }

/-- A snapshot 100 seconds after the 7-days-ago target: exactly as far
from the target as `histEarlyTie`, but chronologically later. -/
def histLateTie : HistSnapshot :=
  { ts := -604700, kr1_value := 8, kr2_value := 20, kr3_value := 85, kr4_value := 5 }

/-- A snapshot 50 seconds after the 7-days-ago target: strictly nearest. -/
def histNearest : HistSnapshot :=
  { ts := -604750, kr1_value := 9, kr2_value := 20, kr3_value := 85, kr4_value := 5 }

/-- A first burndown snapshot: 10 ESOL 2024 devices at second 0. -/
def burnFirst : HistSnapshot :=
  { ts := 0, kr1_value := 10, kr2_value := 20, kr3_value := 85, kr4_value := 5 }

/-- A last burndown snapshot, five days later: 5 ESOL 2024 devices left,
the other raw values unchanged. -/
def burnLast : HistSnapshot :=
  { ts := 432000, kr1_value := 5, kr2_value := 20, kr3_value := 85, kr4_value := 5 }

/-- A snapshot one day after `burnFirst` with identical raw values: every
velocity between the two is zero. -/
def burnFlat : HistSnapshot :=
  { ts := 86400, kr1_value := 10, kr2_value := 20, kr3_value := 85, kr4_value := 5 }

/-! ## Theorems -/

/-- C2: on the example scenario of the specification (weights 25/25/40/10,
targets 0/0/90/0, penalty thresholds 1.0 and 5.0, status thresholds 80/60,
raw percentages 0.5% ESOL 2024 and 2.0% ESOL 2025 over 1000 devices, 85.0%
Windows 11 adoption, 5 enterprise kiosk devices against a target of 0),
`calculate_okr_scores` returns KR1 score 50, KR2 score 60, KR3 score 94.4
(the rounding of 94.44...), KR4 score 0, overall score 65.3 (the rounding
of 65.27...), and status CAUTION. -/
theorem calculate_okr_scores_example_scenario :
    (calculate_okr_scores exampleConfig exampleESOLCounts exampleWin11Counts
        exampleKioskCounts).kr1_score = 50 ∧
    (calculate_okr_scores exampleConfig exampleESOLCounts exampleWin11Counts
        exampleKioskCounts).kr2_score = 60 ∧
    (calculate_okr_scores exampleConfig exampleESOLCounts exampleWin11Counts
        exampleKioskCounts).kr3_score = 944/10 ∧
    (calculate_okr_scores exampleConfig exampleESOLCounts exampleWin11Counts
        exampleKioskCounts).kr4_score = 0 ∧
    (calculate_okr_scores exampleConfig exampleESOLCounts exampleWin11Counts
        exampleKioskCounts).okr_score = 653/10 ∧
    (calculate_okr_scores exampleConfig exampleESOLCounts exampleWin11Counts
        exampleKioskCounts).status = "CAUTION" := by
  refine ⟨?_, ?_, ?_, ?_, ?_, ?_⟩ <;>
    norm_num [calculate_okr_scores, okr_weighted_score, py_round, round_half_even,
      exampleConfig, exampleESOLCounts, exampleWin11Counts, exampleKioskCounts,
      max_def, min_def]

/-- C1: counter-evidence for the claim that the penalty divisors of the KR1
and KR2 scoring rule come from configuration.  Two configurations that
differ exactly in their `penalty_thresholds` section (1.0 and 5.0 versus
0.5 and 2.0, the very inputs of test 2 of `test_penalty_thresholds.py`)
give identical KR1 and KR2 scores on the same raw counts, because
`calculate_okr_scores` divides by the literals `1.0` and `5.0` and never
reads the configured thresholds.  With the configured divisor 0.5 the KR1
score would have to be `max(0, 100 - (0.5/0.5)*100) = 0`, not 50. -/
theorem calculate_okr_scores_ignores_configured_penalty_thresholds :
    exampleConfig.penalty_thresholds ≠ strictPenaltyConfig.penalty_thresholds ∧
    (calculate_okr_scores strictPenaltyConfig exampleESOLCounts exampleWin11Counts
        exampleKioskCounts).kr1_score = 50 ∧
    (calculate_okr_scores strictPenaltyConfig exampleESOLCounts exampleWin11Counts
        exampleKioskCounts).kr2_score = 60 ∧
    calculate_okr_scores strictPenaltyConfig exampleESOLCounts exampleWin11Counts
        exampleKioskCounts =
      calculate_okr_scores exampleConfig exampleESOLCounts exampleWin11Counts
        exampleKioskCounts := by
  refine ⟨?_, ?_, ?_, ?_⟩ <;>
    norm_num [calculate_okr_scores, okr_weighted_score, py_round, round_half_even,
      exampleConfig, strictPenaltyConfig, exampleESOLCounts, exampleWin11Counts,
      exampleKioskCounts, max_def, min_def, PenaltyThresholds.mk.injEq, OKRScores.mk.injEq]

/-- C8: for every weight set summing to 100 with non-negative weights and
every four KR scores in [0, 100], the weighted overall score computed by
`calculate_okr_scores` (each KR score times its weight over 100, summed)
lies in [0, 100]. -/
theorem okr_weighted_score_bounds (w : OKRWeights) (s1 s2 s3 s4 : ℚ)
    (hw : w.kr1_esol_2024 + w.kr2_esol_2025 + w.kr3_win11_compatibility +
      w.kr4_kiosk_reprovisioning = 100)
    (hw1 : 0 ≤ w.kr1_esol_2024) (hw2 : 0 ≤ w.kr2_esol_2025)
    (hw3 : 0 ≤ w.kr3_win11_compatibility) (hw4 : 0 ≤ w.kr4_kiosk_reprovisioning)
    (hs1 : 0 ≤ s1) (hs1' : s1 ≤ 100) (hs2 : 0 ≤ s2) (hs2' : s2 ≤ 100)
    (hs3 : 0 ≤ s3) (hs3' : s3 ≤ 100) (hs4 : 0 ≤ s4) (hs4' : s4 ≤ 100) :
    0 ≤ okr_weighted_score w s1 s2 s3 s4 ∧ okr_weighted_score w s1 s2 s3 s4 ≤ 100 := by
  unfold okr_weighted_score
  constructor
  · positivity
  · nlinarith [mul_nonneg (sub_nonneg.mpr hs1') hw1, mul_nonneg (sub_nonneg.mpr hs2') hw2,
      mul_nonneg (sub_nonneg.mpr hs3') hw3, mul_nonneg (sub_nonneg.mpr hs4') hw4]

/-- Witness for `okr_weighted_score_bounds`: the example scenario weights
25/25/40/10 and KR scores 50, 60, 850/9 and 0 satisfy the hypotheses, and
the theorem bounds the resulting overall score. -/
theorem okr_weighted_score_bounds_witness :
    (exampleConfig.okr_weights.kr1_esol_2024 + exampleConfig.okr_weights.kr2_esol_2025 +
        exampleConfig.okr_weights.kr3_win11_compatibility +
        exampleConfig.okr_weights.kr4_kiosk_reprovisioning = 100) ∧
    (0 ≤ okr_weighted_score exampleConfig.okr_weights 50 60 (850/9) 0 ∧
      okr_weighted_score exampleConfig.okr_weights 50 60 (850/9) 0 ≤ 100) := by
  refine ⟨by norm_num [exampleConfig], ?_⟩
  exact okr_weighted_score_bounds exampleConfig.okr_weights 50 60 (850/9) 0
    (by norm_num [exampleConfig]) (by norm_num [exampleConfig]) (by norm_num [exampleConfig])
    (by norm_num [exampleConfig]) (by norm_num [exampleConfig]) (by norm_num) (by norm_num)
    (by norm_num) (by norm_num) (by norm_num) (by norm_num) (by norm_num) (by norm_num)

/-- Decoding inverts encoding on score tables. -/
theorem decode_rows_map_obj (t : List (List (String × Json))) :
    decode_rows (t.map Json.obj) = some t := by
  induction t with
  | nil => rfl
  | cons r rs ih => simp [decode_rows, decode_row, ih]

/-- C4: loading the document that `save_snapshot` produced returns the
saved snapshot unchanged in every field: the timestamp string, the overall
scores dict and the three per-dimension score tables all round-trip, and
the DataFrames rebuilt by the loader hold exactly the saved rows. -/
theorem load_save_snapshot_roundtrip (timestamp_iso : String)
    (overall_scores : List (String × Json))
    (country_scores sdm_scores site_scores : List (List (String × Json))) :
    load_snapshot
        (save_snapshot timestamp_iso overall_scores country_scores sdm_scores site_scores) =
      some { timestamp := timestamp_iso
             overall_scores := overall_scores
             country_scores := country_scores
             sdm_scores := sdm_scores
             site_scores := site_scores
             country_scores_df := country_scores
             sdm_scores_df := sdm_scores
             site_scores_df := site_scores } := by
  simp [load_snapshot, save_snapshot, json_lookup, decode_str, decode_obj,
    decode_score_table, encode_score_table, decode_rows_map_obj]

/-- C7: with fewer than two snapshots (no snapshot at all, or a single
one), `calculate_burndown_trends` returns the defined degraded result: all
four velocities 0.0, a stable trend direction, no KR1/KR2 projections, and
the insufficient-history flag; being a total function of this shape, it
raises nothing and divides by nothing. -/
theorem calculate_burndown_trends_insufficient_history
    (current_snapshots : List HistSnapshot)
    (h : current_snapshots.length < 2) :
    (calculate_burndown_trends current_snapshots).kr1_velocity = 0 ∧
    (calculate_burndown_trends current_snapshots).kr2_velocity = 0 ∧
    (calculate_burndown_trends current_snapshots).kr3_velocity = 0 ∧
    (calculate_burndown_trends current_snapshots).kr4_velocity = 0 ∧
    (calculate_burndown_trends current_snapshots).trend_direction = "stable" ∧
    (calculate_burndown_trends current_snapshots).projection_kr1_days_to_zero = none ∧
    (calculate_burndown_trends current_snapshots).projection_kr2_days_to_zero = none ∧
    (calculate_burndown_trends current_snapshots).has_sufficient_history = false := by
  unfold calculate_burndown_trends
  rw [dif_pos h]
  simp

/-- Witness for `calculate_burndown_trends_insufficient_history`: a store
holding one single snapshot has length 1 < 2, and the burndown result on
it is the degraded one. -/
theorem calculate_burndown_trends_insufficient_history_witness :
    [burnFirst].length < 2 ∧
    (calculate_burndown_trends [burnFirst]).trend_direction = "stable" ∧
    (calculate_burndown_trends [burnFirst]).has_sufficient_history = false := by
  refine ⟨by simp, ?_, ?_⟩
  · exact (calculate_burndown_trends_insufficient_history [burnFirst] (by simp)).2.2.2.2.1
  · exact (calculate_burndown_trends_insufficient_history [burnFirst] (by simp)).2.2.2.2.2.2.2

/-- With at least two snapshots, `calculate_burndown_trends` is the
sufficient-history computation on the first and last snapshots. -/
theorem calculate_burndown_trends_of_two_le (snaps : List HistSnapshot)
    (h : 2 ≤ snaps.length) (hne : snaps ≠ []) :
    calculate_burndown_trends snaps =
      burndown_core (snaps.head hne) (snaps.getLast hne) snaps.length := by
  unfold calculate_burndown_trends
  rw [dif_neg (by omega)]

/-- C9: when at least two snapshots are given and all four computed KR
velocities are exactly zero, the reported trend direction is `declining`,
not `stable`: zero velocities are not strictly positive, so the count of
positive velocities is 0, which falls in the at-most-one-positive branch. -/
theorem calculate_burndown_trends_zero_velocities_declining
    (snaps : List HistSnapshot) (h2 : 2 ≤ snaps.length)
    (hv1 : (calculate_burndown_trends snaps).kr1_velocity = 0)
    (hv2 : (calculate_burndown_trends snaps).kr2_velocity = 0)
    (hv3 : (calculate_burndown_trends snaps).kr3_velocity = 0)
    (hv4 : (calculate_burndown_trends snaps).kr4_velocity = 0) :
    (calculate_burndown_trends snaps).trend_direction = "declining" := by
  have hne : snaps ≠ [] := by
    intro e
    rw [e] at h2
    simp at h2
  rw [calculate_burndown_trends_of_two_le snaps h2 hne] at hv1 hv2 hv3 hv4 ⊢
  simp only [burndown_core] at hv1 hv2 hv3 hv4 ⊢
  rw [hv1, hv2, hv3, hv4]
  norm_num

/-- Witness for `calculate_burndown_trends_zero_velocities_declining`: two
snapshots one day apart with identical raw values have all four velocities
zero, and the reported direction is `declining`. -/
theorem calculate_burndown_trends_zero_velocities_declining_witness :
    2 ≤ [burnFirst, burnFlat].length ∧
    (calculate_burndown_trends [burnFirst, burnFlat]).kr1_velocity = 0 ∧
    (calculate_burndown_trends [burnFirst, burnFlat]).trend_direction = "declining" := by
  have hv1 : (calculate_burndown_trends [burnFirst, burnFlat]).kr1_velocity = 0 := by
    rw [calculate_burndown_trends_of_two_le [burnFirst, burnFlat] (by simp) (by simp)]
    simp [burndown_core, burnFirst, burnFlat]
  have hv2 : (calculate_burndown_trends [burnFirst, burnFlat]).kr2_velocity = 0 := by
    rw [calculate_burndown_trends_of_two_le [burnFirst, burnFlat] (by simp) (by simp)]
    simp [burndown_core, burnFirst, burnFlat]
  have hv3 : (calculate_burndown_trends [burnFirst, burnFlat]).kr3_velocity = 0 := by
    rw [calculate_burndown_trends_of_two_le [burnFirst, burnFlat] (by simp) (by simp)]
    simp [burndown_core, burnFirst, burnFlat]
  have hv4 : (calculate_burndown_trends [burnFirst, burnFlat]).kr4_velocity = 0 := by
    rw [calculate_burndown_trends_of_two_le [burnFirst, burnFlat] (by simp) (by simp)]
    simp [burndown_core, burnFirst, burnFlat]
  exact ⟨by simp,
    hv1,
    calculate_burndown_trends_zero_velocities_declining [burnFirst, burnFlat]
      (by simp) hv1 hv2 hv3 hv4⟩

/-- `int()` truncation of a non-negative rational is non-negative. -/
theorem py_int_nonneg (q : ℚ) (hq : 0 ≤ q) : 0 ≤ py_int q := by
  unfold py_int
  rw [if_neg (not_lt.mpr hq)]
  exact Int.floor_nonneg.mpr hq

/-- C6: with at least two snapshots, each count-based zero-crossing
projection (KR1 and KR2) equals the truncation of the last raw value over
the computed velocity exactly when that velocity is strictly positive; a
zero or negative velocity yields no projection, and any projection that is
produced is a non-negative day count (so no division by zero and no
negative projection can be reported). -/
theorem calculate_burndown_trends_projection_guard (snaps : List HistSnapshot)
    (last : HistSnapshot) (h2 : 2 ≤ snaps.length)
    (hlast : snaps.getLast? = some last) :
    (0 < (calculate_burndown_trends snaps).kr1_velocity →
      (calculate_burndown_trends snaps).projection_kr1_days_to_zero =
        some (py_int ((last.kr1_value : ℚ) /
          (calculate_burndown_trends snaps).kr1_velocity))) ∧
    ((calculate_burndown_trends snaps).kr1_velocity ≤ 0 →
      (calculate_burndown_trends snaps).projection_kr1_days_to_zero = none) ∧
    (∀ d, (calculate_burndown_trends snaps).projection_kr1_days_to_zero = some d →
      0 ≤ d) ∧
    (0 < (calculate_burndown_trends snaps).kr2_velocity →
      (calculate_burndown_trends snaps).projection_kr2_days_to_zero =
        some (py_int ((last.kr2_value : ℚ) /
          (calculate_burndown_trends snaps).kr2_velocity))) ∧
    ((calculate_burndown_trends snaps).kr2_velocity ≤ 0 →
      (calculate_burndown_trends snaps).projection_kr2_days_to_zero = none) ∧
    (∀ d, (calculate_burndown_trends snaps).projection_kr2_days_to_zero = some d →
      0 ≤ d) := by
  have hne : snaps ≠ [] := by
    intro e
    rw [e] at h2
    simp at h2
  have hl : snaps.getLast hne = last := by
    rw [List.getLast?_eq_getLast snaps hne] at hlast
    exact Option.some_injective _ hlast
  rw [calculate_burndown_trends_of_two_le snaps h2 hne, hl]
  simp only [burndown_core]
  refine ⟨?_, ?_, ?_, ?_, ?_, ?_⟩
  · intro hv
    rw [if_pos hv]
  · intro hv
    rw [if_neg (not_lt.mpr hv)]
  · intro d hd
    split at hd
    · rename_i hv
      rw [Option.some.injEq] at hd
      subst hd
      exact py_int_nonneg _ (div_nonneg (Nat.cast_nonneg _) (le_of_lt hv))
    · simp at hd
  · intro hv
    rw [if_pos hv]
  · intro hv
    rw [if_neg (not_lt.mpr hv)]
  · intro d hd
    split at hd
    · rename_i hv
      rw [Option.some.injEq] at hd
      subst hd
      exact py_int_nonneg _ (div_nonneg (Nat.cast_nonneg _) (le_of_lt hv))
    · simp at hd

/-- Witness for `calculate_burndown_trends_projection_guard`: on two
snapshots five days apart in which the KR1 raw value falls from 10 to 5
the KR1 velocity is strictly positive, and the theorem yields the KR1
projection. -/
theorem calculate_burndown_trends_projection_guard_witness :
    2 ≤ [burnFirst, burnLast].length ∧
    [burnFirst, burnLast].getLast? = some burnLast ∧
    0 < (calculate_burndown_trends [burnFirst, burnLast]).kr1_velocity ∧
    (calculate_burndown_trends [burnFirst, burnLast]).projection_kr1_days_to_zero =
      some (py_int ((burnLast.kr1_value : ℚ) /
        (calculate_burndown_trends [burnFirst, burnLast]).kr1_velocity)) := by
  have hv : 0 < (calculate_burndown_trends [burnFirst, burnLast]).kr1_velocity := by
    rw [calculate_burndown_trends_of_two_le [burnFirst, burnLast] (by simp) (by simp)]
    simp only [burndown_core, List.head_cons]
    apply div_pos
    · norm_num [burnFirst, burnLast]
    · have h1 : (0 : ℤ) < max 1 (Int.fdiv (([burnFirst, burnLast].getLast (by simp)).ts - burnFirst.ts) 86400) :=
        lt_of_lt_of_le one_pos (le_max_left _ _)
      exact_mod_cast h1
  exact ⟨by simp, rfl, hv,
    (calculate_burndown_trends_projection_guard [burnFirst, burnLast] burnLast
      (by simp) rfl).1 hv⟩

/-- Invariant of the scan of `get_previous_snapshot`, starting from an
accumulator `(b0, m0)` whose difference is `m0`: the scan returns a
candidate with the recorded difference, never worse than the accumulator,
equal to the accumulator on an exact tie, drawn from the accumulator or
the scanned list, and no worse than any scanned candidate. -/
theorem nearest_fold_min (now days_back : ℤ) (l : List HistSnapshot) :
    ∀ (b0 : HistSnapshot) (m0 : ℤ), m0 = snapshot_dist now days_back b0 →
    ∃ b m, l.foldl (nearest_step now days_back) (some (b0, m0)) = some (b, m) ∧
      m = snapshot_dist now days_back b ∧
      m ≤ m0 ∧
      (m = m0 → b = b0) ∧
      (b = b0 ∨ b ∈ l) ∧
      (∀ t ∈ l, m ≤ snapshot_dist now days_back t) := by
  induction l with
  | nil =>
    intro b0 m0 h0
    exact ⟨b0, m0, rfl, h0, le_refl _, fun _ => rfl, Or.inl rfl, by simp⟩
  | cons s rest ih =>
    intro b0 m0 h0
    by_cases hlt : snapshot_dist now days_back s < m0
    · have hstep : List.foldl (nearest_step now days_back) (some (b0, m0)) (s :: rest) =
          List.foldl (nearest_step now days_back)
            (some (s, snapshot_dist now days_back s)) rest := by
        simp [nearest_step, hlt]
      obtain ⟨b, m, heq, hm, hle, htie, hmem, hmin⟩ :=
        ih s (snapshot_dist now days_back s) rfl
      refine ⟨b, m, hstep ▸ heq, hm, le_trans hle (le_of_lt hlt), ?_, ?_, ?_⟩
      · intro hmm
        exact absurd hmm (ne_of_lt (lt_of_le_of_lt hle hlt))
      · rcases hmem with h | h
        · exact Or.inr (h ▸ List.mem_cons_self s rest)
        · exact Or.inr (List.mem_cons_of_mem s h)
      · intro t ht
        rcases List.mem_cons.mp ht with h | h
        · exact h ▸ hle
        · exact hmin t h
    · have hstep : List.foldl (nearest_step now days_back) (some (b0, m0)) (s :: rest) =
          List.foldl (nearest_step now days_back) (some (b0, m0)) rest := by
        simp [nearest_step, hlt]
      obtain ⟨b, m, heq, hm, hle, htie, hmem, hmin⟩ := ih b0 m0 h0
      refine ⟨b, m, hstep ▸ heq, hm, hle, htie, ?_, ?_⟩
      · rcases hmem with h | h
        · exact Or.inl h
        · exact Or.inr (List.mem_cons_of_mem s h)
      · intro t ht
        rcases List.mem_cons.mp ht with h | h
        · exact h ▸ le_trans hle (not_lt.mp hlt)
        · exact hmin t h

/-- C5: `get_previous_snapshot` returns `None` exactly on an empty store,
and any snapshot it returns is a stored one whose absolute time difference
from the target date (`now` minus `days_back` days) is least among all
stored snapshots. -/
theorem get_previous_snapshot_nearest_spec (now days_back : ℤ)
    (snapshots : List HistSnapshot) :
    (get_previous_snapshot now days_back snapshots = none ↔ snapshots = []) ∧
    (∀ s, get_previous_snapshot now days_back snapshots = some s →
      s ∈ snapshots ∧
      ∀ t ∈ snapshots, snapshot_dist now days_back s ≤ snapshot_dist now days_back t) := by
  cases snapshots with
  | nil =>
    constructor
    · simp [get_previous_snapshot]
    · intro s hs
      simp [get_previous_snapshot] at hs
  | cons a rest =>
    obtain ⟨b, m, heq, hm, hle, htie, hmem, hmin⟩ :=
      nearest_fold_min now days_back rest a (snapshot_dist now days_back a) rfl
    have hstep : get_previous_snapshot now days_back (a :: rest) =
        (some (b, m)).map Prod.fst := by
      simp only [get_previous_snapshot, List.foldl_cons, nearest_step]
      rw [heq]
    constructor
    · rw [hstep]
      simp
    · intro s hs
      rw [hstep] at hs
      simp at hs
      subst hs
      constructor
      · rcases hmem with h | h
        · exact h ▸ List.mem_cons_self a rest
        · exact List.mem_cons_of_mem a h
      · intro t ht
        rw [← hm]
        rcases List.mem_cons.mp ht with h | h
        · exact h ▸ hle
        · exact hmin t h

/-- Witness for `get_previous_snapshot_nearest_spec`: with `now = 0` and
`days_back = 7`, a store holding a snapshot 100 seconds before the target
and one 50 seconds after it returns the latter, which is stored and
minimizes the absolute difference. -/
theorem get_previous_snapshot_nearest_spec_witness :
    get_previous_snapshot 0 7 [histEarlyTie, histNearest] = some histNearest ∧
    histNearest ∈ [histEarlyTie, histNearest] ∧
    ∀ t ∈ [histEarlyTie, histNearest],
      snapshot_dist 0 7 histNearest ≤ snapshot_dist 0 7 t := by
  have hgps : get_previous_snapshot 0 7 [histEarlyTie, histNearest] = some histNearest := by
    decide
  have h := (get_previous_snapshot_nearest_spec 0 7 [histEarlyTie, histNearest]).2
    histNearest hgps
  exact ⟨hgps, h.1, h.2⟩

/-- Invariant of the scan of `get_previous_snapshot` on a chronologically
sorted suffix, starting from an accumulator drawn from the already-scanned
(hence earlier) prefix: the returned candidate is the chronologically
first one achieving the final minimal difference. -/
theorem nearest_fold_tie (now days_back : ℤ) (l : List HistSnapshot) :
    ∀ (b0 : HistSnapshot) (m0 : ℤ), m0 = snapshot_dist now days_back b0 →
    (∀ t ∈ l, b0.ts ≤ t.ts) →
    l.Pairwise (fun x y => x.ts ≤ y.ts) →
    ∃ b m, l.foldl (nearest_step now days_back) (some (b0, m0)) = some (b, m) ∧
      m = snapshot_dist now days_back b ∧
      m ≤ m0 ∧
      (m = m0 → b = b0) ∧
      (∀ t, (t = b0 ∨ t ∈ l) → snapshot_dist now days_back t = m → b.ts ≤ t.ts) := by
  induction l with
  | nil =>
    intro b0 m0 h0 hb hp
    refine ⟨b0, m0, rfl, h0, le_refl _, fun _ => rfl, ?_⟩
    intro t hmem _
    rcases hmem with h | h
    · exact h ▸ le_refl _
    · simp at h
  | cons s rest ih =>
    intro b0 m0 h0 hb hp
    have hpc := List.pairwise_cons.mp hp
    by_cases hlt : snapshot_dist now days_back s < m0
    · have hstep : List.foldl (nearest_step now days_back) (some (b0, m0)) (s :: rest) =
          List.foldl (nearest_step now days_back)
            (some (s, snapshot_dist now days_back s)) rest := by
        simp [nearest_step, hlt]
      obtain ⟨b, m, heq, hm, hle, htie, horder⟩ :=
        ih s (snapshot_dist now days_back s) rfl hpc.1 hpc.2
      refine ⟨b, m, hstep ▸ heq, hm, le_trans hle (le_of_lt hlt), ?_, ?_⟩
      · intro hmm
        exact absurd hmm (ne_of_lt (lt_of_le_of_lt hle hlt))
      · intro t hmem hdt
        rcases hmem with h | h
        · exfalso
          have h1 : m < m0 := lt_of_le_of_lt hle hlt
          rw [← hdt, h, ← h0] at h1
          exact lt_irrefl _ h1
        · rcases List.mem_cons.mp h with h2 | h2
          · exact horder t (Or.inl h2) hdt
          · exact horder t (Or.inr h2) hdt
    · have hstep : List.foldl (nearest_step now days_back) (some (b0, m0)) (s :: rest) =
          List.foldl (nearest_step now days_back) (some (b0, m0)) rest := by
        simp [nearest_step, hlt]
      obtain ⟨b, m, heq, hm, hle, htie, horder⟩ :=
        ih b0 m0 h0 (fun t ht => hb t (List.mem_cons_of_mem s ht)) hpc.2
      refine ⟨b, m, hstep ▸ heq, hm, hle, htie, ?_⟩
      intro t hmem hdt
      rcases hmem with h | h
      · exact horder t (Or.inl h) hdt
      · rcases List.mem_cons.mp h with h2 | h2
        · by_cases hmm : m = m0
          · rw [htie hmm]
            exact hb t (by rw [h2]; exact List.mem_cons_self s rest)
          · exfalso
            have h1 : m < m0 := lt_of_le_of_ne hle hmm
            have h2' : m0 ≤ snapshot_dist now days_back s := not_lt.mp hlt
            rw [← h2, hdt] at h2'
            exact absurd h1 (not_lt.mpr h2')
        · exact horder t (Or.inr h2) hdt

/-- C10: on a chronologically ordered store (the order in which
`_list_snapshot_files` scans, since the sorted timestamp-stamped filenames
are chronological), any snapshot returned by `get_previous_snapshot` is
chronologically no later than every stored snapshot exactly as far from
the target date: on an exact tie the chronologically earlier snapshot
wins, because a later candidate replaces the current best only when its
difference is strictly smaller. -/
theorem get_previous_snapshot_tie_prefers_earlier (now days_back : ℤ)
    (snapshots : List HistSnapshot)
    (hsorted : snapshots.Pairwise (fun x y => x.ts ≤ y.ts))
    (s : HistSnapshot)
    (hs : get_previous_snapshot now days_back snapshots = some s) :
    ∀ t ∈ snapshots,
      snapshot_dist now days_back t = snapshot_dist now days_back s → s.ts ≤ t.ts := by
  cases snapshots with
  | nil => simp [get_previous_snapshot] at hs
  | cons a rest =>
    have hpc := List.pairwise_cons.mp hsorted
    obtain ⟨b, m, heq, hm, hle, htie, horder⟩ :=
      nearest_fold_tie now days_back rest a (snapshot_dist now days_back a) rfl
        hpc.1 hpc.2
    have hstep : get_previous_snapshot now days_back (a :: rest) =
        (some (b, m)).map Prod.fst := by
      simp only [get_previous_snapshot, List.foldl_cons, nearest_step]
      rw [heq]
    rw [hstep] at hs
    simp at hs
    subst hs
    intro t ht hdt
    rcases List.mem_cons.mp ht with h | h
    · exact horder t (Or.inl h) (hdt.trans hm.symm)
    · exact horder t (Or.inr h) (hdt.trans hm.symm)

/-- Witness for `get_previous_snapshot_tie_prefers_earlier`: two stored
snapshots 100 seconds before and 100 seconds after the target date are
exactly equidistant; the chronologically sorted store returns the earlier
one, and the theorem bounds its timestamp by every equidistant one. -/
theorem get_previous_snapshot_tie_prefers_earlier_witness :
    [histEarlyTie, histLateTie].Pairwise (fun x y => x.ts ≤ y.ts) ∧
    get_previous_snapshot 0 7 [histEarlyTie, histLateTie] = some histEarlyTie ∧
    snapshot_dist 0 7 histLateTie = snapshot_dist 0 7 histEarlyTie ∧
    ∀ t ∈ [histEarlyTie, histLateTie],
      snapshot_dist 0 7 t = snapshot_dist 0 7 histEarlyTie → histEarlyTie.ts ≤ t.ts := by
  have hp : [histEarlyTie, histLateTie].Pairwise (fun x y => x.ts ≤ y.ts) := by
    simp [List.pairwise_cons, histEarlyTie, histLateTie]
  have hgps : get_previous_snapshot 0 7 [histEarlyTie, histLateTie] = some histEarlyTie := by
    decide
  exact ⟨hp, hgps, by decide,
    get_previous_snapshot_tie_prefers_earlier 0 7 [histEarlyTie, histLateTie] hp
      histEarlyTie hgps⟩
